import Mathlib

/-!
Verification of the `slay` discrete-event simulator core (src/core) against its
natural-language specification.

The Rust sources are shallowly embedded: `u32`/`u64`/`u128` quantities become
`Nat` (no claim here depends on wraparound), `f32` quantities that feed control
flow become `ℚ`, `HashMap`s become association lists, and every RNG draw is an
explicit oracle argument of the function that performs it, so each definition
is a deterministic function of its inputs.
-/

namespace Slay

/-- `traits.rs`: `pub type NodeId = u32`. -/
abbrev NodeId := Nat

/-- `engine.rs` lines 9-34: the `EventType` enum. There are exactly four
variants; in particular no maintenance/config event exists. -/
inductive EventType where
  | arrival (request_id : Nat) (path : List NodeId) (start_time : Nat) (timeout : Nat)
  | processComplete (request_id : Nat) (success : Bool) (start_time : Nat)
      (path : List NodeId) (timeout : Nat)
  | response (request_id : Nat) (path : List NodeId) (start_time : Nat)
      (success : Bool) (timeout : Nat)
  | generateNext (generation_id : Nat)
  deriving DecidableEq, Repr

/-- `engine.rs` lines 36-41: an event in the queue. -/
structure Event where
  time : Nat
  node_id : NodeId
  event_type : EventType
  deriving DecidableEq, Repr

/-- `engine.rs` lines 60-64: a scheduling command returned by a component. -/
structure ScheduleCmd where
  delay : Nat
  node_id : NodeId
  event_type : EventType
  deriving DecidableEq, Repr

/-- `engine.rs` lines 43-58: `Event`'s `PartialEq`/`Ord` compare ONLY the
`time` field.  The queue is `BinaryHeap<Reverse<Event>>`, so in the heap's
(max-heap) order `a ≤ b` iff `b.time ≤ a.time`. -/
def revLe (a b : Event) : Bool := decide (b.time ≤ a.time)

/-- Hole-based `sift_up` of Rust's `std::collections::BinaryHeap`
(`sift_up(start, pos)`): the element at `pos` bubbles toward `start`, moving
each strictly-smaller parent down; it stops as soon as the element compares
`≤` the parent (so equal elements never move past each other here).  Fuel is
`pos`, which strictly bounds the number of parent steps. -/
def siftUpAux (e : Event) (start : Nat) : Nat → Nat → List Event → List Event
  | 0, pos, data => data.set pos e
  | fuel + 1, pos, data =>
    if start < pos then
      let parent := (pos - 1) / 2
      match data.get? parent with
      | some p =>
        if revLe e p then data.set pos e
        else siftUpAux e start fuel parent (data.set pos p)
      | none => data.set pos e
    else data.set pos e

/-- `sift_up` entry point: read the element at `pos` and bubble it up. -/
def siftUp (data : List Event) (start pos : Nat) : List Event :=
  match data.get? pos with
  | some e => siftUpAux e start pos pos data
  | none => data

/-- `BinaryHeap::push`: append then `sift_up(0, len - 1)`. -/
def heapPush (data : List Event) (e : Event) : List Event :=
  siftUp (data ++ [e]) 0 data.length

/-- The hole walk of Rust's `sift_down_to_bottom(pos)`: the hole moves to the
bottom of the heap, always toward the greater child (ties prefer the right
child, per `child += (hole.get(child) <= hole.get(child + 1)) as usize`),
then the final odd single-child move.  Returns the array with the children
moved up plus the hole's final position. -/
def siftDownWalk (endd : Nat) : Nat → Nat → List Event → List Event × Nat
  | 0, pos, data => (data, pos)
  | fuel + 1, pos, data =>
    let child := 2 * pos + 1
    if child + 2 ≤ endd then
      match data.get? child, data.get? (child + 1) with
      | some c1, some c2 =>
        if revLe c1 c2 then siftDownWalk endd fuel (child + 1) (data.set pos c2)
        else siftDownWalk endd fuel child (data.set pos c1)
      | _, _ => (data, pos)
    else if child + 1 = endd then
      match data.get? child with
      | some c => (data.set pos c, child)
      | none => (data, pos)
    else (data, pos)

/-- Rust's `sift_down_to_bottom(start)` as used by `BinaryHeap::pop`: walk the
hole to the bottom, drop the element there, then `sift_up(start, pos)`. -/
def siftDownToBottom (data : List Event) (start : Nat) : List Event :=
  match data.get? start with
  | some e =>
    let w := siftDownWalk data.length data.length start data
    siftUp (w.1.set w.2 e) start w.2
  | none => data

/-- `BinaryHeap::pop`: remove the last element, swap it with the root, and
restore the heap with `sift_down_to_bottom(0)`. -/
def heapPop (data : List Event) : Option (Event × List Event) :=
  match data.getLast? with
  | none => none
  | some last =>
    let rest := data.dropLast
    match rest.head? with
    | none => some (last, [])
    | some root => some (root, siftDownToBottom (rest.set 0 last) 0)

/-- Push a list of events in order (the insertion order of `schedule`). -/
def heapPushAll (data : List Event) (es : List Event) : List Event :=
  es.foldl heapPush data

/-- Pop up to `fuel` events, in the order `step()` would dispatch them. -/
def heapPopAll : Nat → List Event → List Event
  | 0, _ => []
  | fuel + 1, data =>
    match heapPop data with
    | none => []
    | some (e, d) => e :: heapPopAll fuel d

/-- Dispatch order of the whole queue, projected to the node ids. -/
def drainIds (data : List Event) : List NodeId :=
  (heapPopAll data.length data).map (fun e => e.node_id)

/-- An event at a fixed virtual time, tagged by `i` so insertions can be told
apart; all such events compare equal under `Event`'s time-only `Ord`. -/
def tieEvent (i : NodeId) : Event :=
  { time := 100, node_id := i, event_type := EventType.generateNext 0 }

/-! ## Network model (`network.rs`) -/

/-- `network.rs` lines 5-10. -/
structure EdgeConfig where
  latency_us : Nat
  jitter_us : Nat
  packet_loss_rate : ℚ
  deriving DecidableEq, Repr

/-- `network.rs` lines 12-20: `EdgeConfig::default` — note the 10 ms base
latency. -/
def EdgeConfig.default : EdgeConfig :=
  { latency_us := 10000, jitter_us := 0, packet_loss_rate := 0 }

/-- `network.rs` lines 25-29. -/
structure Link where
  min_to_max : EdgeConfig
  max_to_min : EdgeConfig
  deriving DecidableEq, Repr

/-- `network.rs` lines 31-38. -/
def Link.default : Link :=
  { min_to_max := EdgeConfig.default, max_to_min := EdgeConfig.default }

/-- `network.rs` lines 41-47. -/
def Link.get_config (l : Link) (f t : NodeId) : EdgeConfig :=
  if f < t then l.min_to_max else l.max_to_min

/-- `network.rs` lines 58-64. -/
def canonical_key (a b : NodeId) : NodeId × NodeId :=
  if a < b then (a, b) else (b, a)

/-- The `links: HashMap<(NodeId, NodeId), Link>` of `Simulation`, as an
association list. -/
abbrev LinkTable := List ((NodeId × NodeId) × Link)

/-- `HashMap` lookup on the link table. -/
def lookupLink (links : LinkTable) (k : NodeId × NodeId) : Option Link :=
  (links.find? (fun p => p.1 == k)).map (fun p => p.2)

/-- Which command kinds are subject to link physics in `step()`
(`engine.rs` lines 184-187). -/
def EventType.isTransit : EventType → Bool
  | EventType.arrival _ _ _ _ => true
  | EventType.response _ _ _ _ _ => true
  | _ => false

/-- Discriminator for the `Arrival` variant. -/
def EventType.isArrival : EventType → Bool
  | EventType.arrival _ _ _ _ => true
  | _ => false

/-- Discriminator for the `Response` variant. -/
def EventType.isResponse : EventType → Bool
  | EventType.response _ _ _ _ _ => true
  | _ => false

/-- `engine.rs` lines 180-211: the link physics `step()` applies to one
command returned by a handler at node `node_id` at virtual time `now`.
`lossDraw` models `rng.gen::<f32>()` and `jitterDraw` models
`rng.gen_range(0..=edge.jitter_us)` (so a caller assumes
`jitterDraw ≤ edge.jitter_us`).  Returns the absolute virtual time at which
the command is enqueued, or `none` when the packet is dropped. -/
def applyLinkPhysics (links : LinkTable) (now : Nat) (node_id : NodeId)
    (cmd : ScheduleCmd) (lossDraw : ℚ) (jitterDraw : Nat) : Option Nat :=
  if cmd.event_type.isTransit = true ∧ cmd.node_id ≠ node_id then
    let link := (lookupLink links (canonical_key node_id cmd.node_id)).getD Link.default
    let edge := link.get_config node_id cmd.node_id
    if 0 < edge.packet_loss_rate ∧ lossDraw < edge.packet_loss_rate then none
    else
      let jitter := if 0 < edge.jitter_us then jitterDraw else 0
      some (now + (cmd.delay + edge.latency_us + jitter))
  else some (now + cmd.delay)

/-! ## Simulation state, terminal-response statistics, reset
(`engine.rs`) -/

/-- `engine.rs` lines 70-82: the `Simulation` struct.  The component map is
opaque to the claims settled here, so it is a type parameter; the histogram
is the list of its recorded values and the RNG is kept as its seed. -/
structure Simulation (C : Type) where
  time : Nat
  components : C
  events : List Event
  success_count : Nat
  failure_count : Nat
  latencies : List (Nat × Nat)
  histogram : List Nat
  links : LinkTable
  health_buffer : List (NodeId × Bool)
  seed : Nat

/-- `Histogram::<u64>::new_with_bounds(1, 60_000_000, 3).record(v).ok()`
(`engine.rs` lines 93 and 152): with auto-resize off, hdrhistogram rejects a
value only when it does not map into the allocated counts array.  With
3 significant figures the sub-bucket count is 2048 (2·10³ rounded up to a
power of two), `unit_magnitude = 0` for a lowest discernible value of 1, and
16 buckets are needed to cover 60 000 000 (2048·2¹⁴ ≤ 60 000 000 <
2048·2¹⁵), so every value up to the last bucket's top 2048·2¹⁵ − 1 =
67 108 863 is recorded; beyond that `record` errs and `.ok()` silently
discards the error. -/
def recordHist (h : List Nat) (v : Nat) : List Nat :=
  if v ≤ 67108863 then h ++ [v] else h

/-- `engine.rs` lines 133-166: the statistics part of `step()` — set
`time := e.time` and, when the popped event is a terminal `Response`
(`path.len() == 1`), update the counters, the histogram and the 60-second
latency ring.  `e.time - start_time` and `e.time - 60000000` are
`saturating_sub`, which is exactly `Nat` subtraction. -/
def updateTerminalStats {C : Type} (s : Simulation C) (e : Event) : Simulation C :=
  let s1 := { s with time := e.time }
  match e.event_type with
  | EventType.response _ path start_time success timeout =>
    if path.length = 1 then
      let total := e.time - start_time
      if timeout < total then
        { s1 with failure_count := s1.failure_count + 1 }
      else if success then
        let cutoff := e.time - 60000000
        { s1 with
          success_count := s1.success_count + 1,
          latencies := (s1.latencies ++ [(e.time, total)]).dropWhile
            (fun p => p.1 < cutoff),
          histogram := recordHist s1.histogram total }
      else
        { s1 with failure_count := s1.failure_count + 1 }
    else s1
  | _ => s1

/-- `engine.rs` lines 219-224: `Simulation::reset_stats`. -/
def Simulation.reset_stats {C : Type} (s : Simulation C) : Simulation C :=
  { s with
    success_count := 0,
    failure_count := 0,
    latencies := [],
    histogram := [] }

/-! ## Association-list counterparts of the `HashMap` operations used by the
components -/

/-- `HashMap::get` / lookup. -/
def alookup {β : Type} (l : List (Nat × β)) (k : Nat) : Option β :=
  (l.find? (fun p => p.1 == k)).map (fun p => p.2)

/-- `HashMap::remove`. -/
def aremove {β : Type} (l : List (Nat × β)) (k : Nat) : List (Nat × β) :=
  l.filter (fun p => !(p.1 == k))

/-- `HashMap::insert` (replacing any previous binding). -/
def ainsert {β : Type} (l : List (Nat × β)) (k : Nat) (v : β) : List (Nat × β) :=
  aremove l k ++ [(k, v)]

/-- `if let Some(v) = map.get_mut(&k) { f(v) }`: update in place when the key
is present, no-op otherwise. -/
def aupdate {β : Type} (l : List (Nat × β)) (k : Nat) (f : β → β) : List (Nat × β) :=
  l.map (fun p => if p.1 == k then (p.1, f p.2) else p)

/-- `*map.entry(k).or_insert(0) += 1`. -/
def bumpLoad (l : List (NodeId × Nat)) (k : NodeId) : List (NodeId × Nat) :=
  match alookup l k with
  | some _ => aupdate l k (fun v => v + 1)
  | none => l ++ [(k, 1)]

/-- `if let Some(load) = map.get_mut(&k) { *load = load.saturating_sub(1) }`
(`Nat` subtraction is saturating). -/
def decLoad (l : List (NodeId × Nat)) (k : NodeId) : List (NodeId × Nat) :=
  aupdate l k (fun v => v - 1)

/-- The 1-second rolling-window prune shared by all components
(`update_rps_window` / `update_window`): pop from the front while
`now > t + 1_000_000`. -/
def pruneWindow (w : List Nat) (now : Nat) : List Nat :=
  w.dropWhile (fun t => t + 1000000 < now)

/-- `lib.rs` line 16. -/
def PROCESS_OVERHEAD_US : Nat := 2000

/-! ## LoadBalancer (`components/load_balancer.rs`) -/

/-- `load_balancer.rs` lines 9-17. -/
inductive BalancingStrategy where
  | roundRobin
  | random
  | leastConnections
  deriving DecidableEq, Repr

/-- `load_balancer.rs` lines 20-28. -/
inductive RetryStrategy where
  | immediate
  | constant
  | exponential
  deriving DecidableEq, Repr

/-- `load_balancer.rs` lines 30-36. -/
structure RetryState where
  retry_count : Nat
  failed_targets : List NodeId
  deriving DecidableEq, Repr

/-- `load_balancer.rs` lines 38-55. -/
structure LoadBalancerConfig where
  strategy : BalancingStrategy
  max_retries : Nat
  retry_backoff_ms : Nat
  retry_strategy : RetryStrategy
  retry_budget_ratio : ℚ
  min_retry_rate : Nat
  retry_budget_max_tokens : ℚ
  deriving DecidableEq, Repr

/-- `load_balancer.rs` lines 57-69: `LoadBalancerConfig::default`. -/
def LoadBalancerConfig.default : LoadBalancerConfig :=
  { strategy := BalancingStrategy.roundRobin
    max_retries := 2
    retry_backoff_ms := 50
    retry_strategy := RetryStrategy.constant
    retry_budget_ratio := 1 / 5
    min_retry_rate := 10
    retry_budget_max_tokens := 10 }

/-- `load_balancer.rs` lines 71-100: the `LoadBalancer` struct (the UI-only
display fields are dropped; the RNG is an oracle argument of `on_event`). -/
structure LoadBalancer where
  targets : List NodeId
  next_rr_idx : Nat
  active_loads : List (NodeId × Nat)
  arrival_window : List Nat
  is_healthy : Bool
  state_table : List (Nat × NodeId)
  in_flight_retries : List (Nat × RetryState)
  total_retries : Nat
  retry_token_balance : ℚ
  config : LoadBalancerConfig
  deriving DecidableEq

/-- `load_balancer.rs` lines 103-120: `LoadBalancer::new` — full initial
retry budget of 10.0 tokens, default config. -/
def LoadBalancer.new : LoadBalancer :=
  { targets := []
    next_rr_idx := 0
    active_loads := []
    arrival_window := []
    is_healthy := true
    state_table := []
    in_flight_retries := []
    total_retries := 0
    retry_token_balance := 10
    config := LoadBalancerConfig.default }

/-- `active_loads.get(&id).unwrap_or(&0)`. -/
def loadOf (loads : List (NodeId × Nat)) (id : NodeId) : Nat :=
  (alookup loads id).getD 0

/-- `Iterator::min_by_key` over the filtered target list: the FIRST element
attaining the minimal key is returned. -/
def minByLoad (ht : List NodeId) (loads : List (NodeId × Nat)) : Option NodeId :=
  ht.foldl
    (fun acc id =>
      match acc with
      | none => some id
      | some best => if loadOf loads id < loadOf loads best then some id else acc)
    none

/-- The `healthy_targets` filter of `select_target`
(`load_balancer.rs` lines 128-133). -/
def healthyTargets (targets : List NodeId) (healthy : NodeId → Bool)
    (exclusions : List NodeId) : List NodeId :=
  targets.filter (fun id => healthy id && !(exclusions.contains id))

/-- The round-robin scan of `select_target` (`load_balancer.rs` lines
144-155): starting at `next_rr_idx`, the first target in the filtered set is
chosen and the index advances past it. -/
def rrScan (targets : List NodeId) (next_rr_idx : Nat) (ht : List NodeId) :
    Option (NodeId × Nat) :=
  let n := targets.length
  (List.range n).findSome? (fun i =>
    let idx := (next_rr_idx + i) % n
    match targets.get? idx with
    | some t => if ht.contains t then some (t, (idx + 1) % n) else none
    | none => none)

/-- `load_balancer.rs` lines 122-161: `select_target`.  `randIdx` models
`rng.gen_range(0..healthy_targets.len())` for the `Random` strategy (callers
assume it is in range).  Returns the selected target (if any) and the new
`next_rr_idx`. -/
def select_target (lb : LoadBalancer) (strategy : BalancingStrategy)
    (healthy : NodeId → Bool) (exclusions : List NodeId) (randIdx : Nat) :
    Option NodeId × Nat :=
  let ht := healthyTargets lb.targets healthy exclusions
  if ht.isEmpty then (none, lb.next_rr_idx)
  else
    match strategy with
    | BalancingStrategy.random => (ht.get? randIdx, lb.next_rr_idx)
    | BalancingStrategy.roundRobin =>
      match rrScan lb.targets lb.next_rr_idx ht with
      | some (t, newIdx) => (some t, newIdx)
      | none => (none, lb.next_rr_idx)
    | BalancingStrategy.leastConnections =>
      (minByLoad ht lb.active_loads, lb.next_rr_idx)

/-- The shared tail of the `Response` arm (`load_balancer.rs` lines
336-352): pop self from the path and forward the response upstream with the
fixed `PROCESS_OVERHEAD_US` delay, or absorb it when the path is exhausted. -/
def respondUp (lb : LoadBalancer) (rid : Nat) (path : List NodeId)
    (st : Nat) (success : Bool) (tmo : Nat) : LoadBalancer × List ScheduleCmd :=
  let p := path.dropLast
  match p.getLast? with
  | some prev =>
    (lb, [{ delay := PROCESS_OVERHEAD_US, node_id := prev,
            event_type := EventType.response rid p st success tmo }])
  | none => (lb, [])

/-- `load_balancer.rs` lines 181-356: `LoadBalancer::on_event`.  The two RNG
draws are oracles: `randIdx` for `select_target`'s `Random` strategy and
`jitterDraw` for the retry jitter `rng.gen_range(0..=(delay_us/10).max(1))`
(callers assume `jitterDraw ≤ max (retry_backoff_ms*1000/10) 1`). -/
def LoadBalancer.on_event (lb : LoadBalancer) (ev : Event)
    (healthy : NodeId → Bool) (randIdx : Nat) (jitterDraw : Nat) :
    LoadBalancer × List ScheduleCmd :=
  let lb := { lb with arrival_window := pruneWindow lb.arrival_window ev.time }
  match ev.event_type with
  | EventType.arrival rid path st tmo =>
    let cfg := lb.config
    let bal := lb.retry_token_balance + cfg.retry_budget_ratio
    let bal := if cfg.retry_budget_max_tokens < bal then cfg.retry_budget_max_tokens else bal
    let lb := { lb with retry_token_balance := bal }
    if lb.is_healthy = false then
      match path.getLast? with
      | some prev =>
        (lb, [{ delay := 0, node_id := prev,
                event_type := EventType.response rid path st false tmo }])
      | none => (lb, [])
    else
      let lb := { lb with arrival_window := lb.arrival_window ++ [ev.time] }
      let sel := select_target lb cfg.strategy healthy [] randIdx
      let lb := { lb with next_rr_idx := sel.2 }
      match sel.1 with
      | some target =>
        ({ lb with
            active_loads := bumpLoad lb.active_loads target,
            state_table := ainsert lb.state_table rid target },
         [{ delay := PROCESS_OVERHEAD_US, node_id := target,
            event_type := EventType.arrival rid (path ++ [ev.node_id]) st tmo }])
      | none =>
        match path.getLast? with
        | some prev =>
          (lb, [{ delay := 0, node_id := prev,
                  event_type := EventType.response rid path st false tmo }])
        | none => (lb, [])
  | EventType.response rid path st success tmo =>
    match alookup lb.state_table rid with
    | some server_id =>
      let lb := { lb with
        state_table := aremove lb.state_table rid,
        active_loads := decLoad lb.active_loads server_id }
      if success = false then
        let cfg := lb.config
        let rs := (alookup lb.in_flight_retries rid).getD
          { retry_count := 0, failed_targets := [] }
        let lb := { lb with in_flight_retries := aremove lb.in_flight_retries rid }
        if rs.retry_count < cfg.max_retries ∧ 1 ≤ lb.retry_token_balance then
          let failed := rs.failed_targets ++ [server_id]
          let sel := select_target lb cfg.strategy healthy failed randIdx
          let lb := { lb with next_rr_idx := sel.2 }
          match sel.1 with
          | some new_target =>
            let delay_us := cfg.retry_backoff_ms * 1000 + jitterDraw
            ({ lb with
                retry_token_balance := lb.retry_token_balance - 1,
                in_flight_retries := ainsert lb.in_flight_retries rid
                  { retry_count := rs.retry_count + 1, failed_targets := failed },
                total_retries := lb.total_retries + 1,
                active_loads := bumpLoad lb.active_loads new_target,
                state_table := ainsert lb.state_table rid new_target },
             [{ delay := delay_us, node_id := new_target,
                event_type := EventType.arrival rid path st tmo }])
          | none => respondUp lb rid path st success tmo
        else
          respondUp lb rid path st success tmo
      else
        let lb := { lb with in_flight_retries := aremove lb.in_flight_retries rid }
        respondUp lb rid path st success tmo
    | none => respondUp lb rid path st success tmo
  | _ => (lb, [])

/-- `load_balancer.rs` lines 372-377: `LoadBalancer::apply_config` for a
configuration that deserializes successfully — the config is replaced and
nothing else happens; in particular no schedule command is returned and
`is_healthy` is untouched. -/
def LoadBalancer.apply_config (lb : LoadBalancer) (newCfg : LoadBalancerConfig) :
    LoadBalancer × List ScheduleCmd :=
  ({ lb with config := newCfg }, [])

/-! ## Server (`components/server.rs`) -/

/-- `server.rs` lines 9-30. -/
structure ServerConfig where
  service_time : Nat
  concurrency : Nat
  backlog_limit : Nat
  failure_probability : ℚ
  saturation_penalty : ℚ
  deriving DecidableEq, Repr

/-- `server.rs` lines 45-68: the `Server` struct (UI display fields
dropped, RNG passed as oracles). -/
structure Server where
  active_threads : Nat
  queue : List (Nat × List NodeId × Nat × Nat)
  next_hop : Option NodeId
  errors : Nat
  healthy : Bool
  arrival_window : List Nat
  config : ServerConfig
  deriving DecidableEq

/-- `server.rs` lines 126-327: `Server::on_event`.  `failDraw` models
`rng.gen::<f32>()` in the failure coin flip.  `calculate_processing_delay`
(lines 103-111) mixes `f32`/`f64` arithmetic whose value never feeds back
into control flow, so its two invocations enter the model as the oracle
inputs `delayDraw` (admission) and `delayDraw2` (queue hand-off). -/
def Server.on_event (s : Server) (ev : Event) (failDraw : ℚ)
    (delayDraw delayDraw2 : Nat) : Server × List ScheduleCmd :=
  let s := { s with arrival_window := pruneWindow s.arrival_window ev.time }
  let cfg := s.config
  match ev.event_type with
  | EventType.arrival rid path st tmo =>
    let s := { s with arrival_window := s.arrival_window ++ [ev.time] }
    if s.healthy = false then
      let s := { s with errors := s.errors + 1 }
      match path.getLast? with
      | some prev =>
        (s, [{ delay := 0, node_id := prev,
               event_type := EventType.response rid path st false tmo }])
      | none => (s, [])
    else if (0 : ℚ) < cfg.failure_probability ∧ failDraw < cfg.failure_probability then
      let s := { s with errors := s.errors + 1 }
      match path.getLast? with
      | some prev =>
        (s, [{ delay := 0, node_id := prev,
               event_type := EventType.response rid path st false tmo }])
      | none => (s, [])
    else if s.active_threads < cfg.concurrency then
      ({ s with active_threads := s.active_threads + 1 },
       [{ delay := delayDraw, node_id := ev.node_id,
          event_type := EventType.processComplete rid true st path tmo }])
    else if cfg.backlog_limit ≤ s.queue.length then
      let s := { s with errors := s.errors + 1 }
      match path.getLast? with
      | some prev =>
        (s, [{ delay := 0, node_id := prev,
               event_type := EventType.response rid path st false tmo }])
      | none => (s, [])
    else
      ({ s with queue := s.queue ++ [(rid, path, st, tmo)] }, [])
  | EventType.processComplete rid success st path tmo =>
    let fwd : List ScheduleCmd :=
      if success then
        match s.next_hop with
        | some hop =>
          [{ delay := 0, node_id := hop,
             event_type := EventType.arrival rid (path ++ [ev.node_id]) st tmo }]
        | none =>
          match path.getLast? with
          | some prev =>
            [{ delay := 0, node_id := prev,
               event_type := EventType.response rid path st true tmo }]
          | none => []
      else
        match path.getLast? with
        | some prev =>
          [{ delay := 0, node_id := prev,
             event_type := EventType.response rid path st false tmo }]
        | none => []
    match s.queue with
    | (nrid, npath, nst, ntmo) :: rest =>
      ({ s with queue := rest },
       fwd ++ [{ delay := delayDraw2, node_id := ev.node_id,
                 event_type := EventType.processComplete nrid true nst npath ntmo }])
    | [] => ({ s with active_threads := s.active_threads - 1 }, fwd)
  | EventType.response rid path st success tmo =>
    match path with
    | [] => (s, [])
    | _ :: _ =>
      let p := path.dropLast
      match p.getLast? with
      | some prev =>
        (s, [{ delay := 0, node_id := prev,
               event_type := EventType.response rid p st success tmo }])
      | none => (s, [])
  | _ => (s, [])

/-! ## Client (`components/client.rs`) -/

/-- `client.rs` lines 8-13. -/
structure ClientConfig where
  arrival_rate : ℚ
  timeout : Nat
  generation_id : Nat
  deriving DecidableEq, Repr

/-- `client.rs` lines 25-35 (UI display fields dropped). -/
structure Client where
  config : ClientConfig
  target_id : Option NodeId
  window : List Nat
  request_counter : Nat
  healthy : Bool
  deriving DecidableEq

/-- `client.rs` lines 83-87: the base self-tick interval —
`(1_000_000.0 / arrival_rate) as u64` when the rate is positive
(`f32` division modelled as the ℚ quotient truncated toward zero), and the
literal `1_000_000_000` µs fallback otherwise. -/
def clientIntervalUs (arrival_rate : ℚ) : Nat :=
  if 0 < arrival_rate then (Int.floor (1000000 / arrival_rate)).toNat
  else 1000000000

/-- `client.rs` lines 73-118: `Client::on_event` on `GenerateNext`.
`jitterDraw` models `rng.gen_range(0.95..1.05)` and `saltDraw` models
`rng.next_u32()`; `(interval_us as f64 * jitter) as u64` is the truncated
product. -/
def Client.on_event (c : Client) (ev : Event) (jitterDraw : ℚ) (saltDraw : Nat) :
    Client × List ScheduleCmd :=
  let c := { c with window := pruneWindow c.window ev.time }
  match ev.event_type with
  | EventType.generateNext gid =>
    if c.healthy = false ∨ gid ≠ c.config.generation_id then (c, [])
    else
      let interval_us := clientIntervalUs c.config.arrival_rate
      let next_delay_us := (Int.floor ((interval_us : ℚ) * jitterDraw)).toNat
      let gen : ScheduleCmd :=
        { delay := next_delay_us, node_id := ev.node_id,
          event_type := EventType.generateNext gid }
      match c.target_id with
      | some target =>
        let c := { c with
          request_counter := c.request_counter + 1,
          window := c.window ++ [ev.time] }
        let rid := (ev.node_id % 2 ^ 32) * 2 ^ 96 +
          (saltDraw % 2 ^ 32) * 2 ^ 64 + c.request_counter % 2 ^ 64
        (c, [gen,
          { delay := 0, node_id := target,
            event_type := EventType.arrival rid [ev.node_id] ev.time
              (c.config.timeout * 1000) }])
      | none => (c, [gen])
  | _ => (c, [])

/-! ## Concrete instances used to settle the claims -/

/-- An empty simulation state over a trivial component map. -/
def simEmpty : Simulation Unit :=
  { time := 0, components := (), events := [], success_count := 0,
    failure_count := 0, latencies := [], histogram := [], links := [],
    health_buffer := [], seed := 0 }

/-- A terminal successful response whose elapsed time (70.000001 s) exceeds
the histogram's highest recordable value 67 108 863 µs but not its (large)
timeout. -/
def eBig : Event :=
  { time := 70000001, node_id := 1,
    event_type := EventType.response 0 [1] 0 true 1000000000 }

/-- A terminal successful response with a 5 ms elapsed time. -/
def eSmall : Event :=
  { time := 5000, node_id := 1,
    event_type := EventType.response 0 [1] 0 true 10000 }

/-- A load balancer configured with `RetryStrategy::Immediate`, one failed
in-flight request on backend 3 and a healthy alternative backend 4. -/
def lbImm : LoadBalancer :=
  { LoadBalancer.new with
    targets := [3, 4]
    active_loads := [(3, 1)]
    state_table := [(7, 3)]
    config := { LoadBalancerConfig.default with
      retry_strategy := RetryStrategy.immediate
      max_retries := 1
      retry_backoff_ms := 50 } }

/-- The failed response for request 7 arriving back at the LB (node 2). -/
def evFail : Event :=
  { time := 1000, node_id := 2,
    event_type := EventType.response 7 [1, 2] 0 false 5000000 }

/-- A fresh load balancer with a single backend (node 3). -/
def lbOne : LoadBalancer := { LoadBalancer.new with targets := [3] }

/-- A new request arriving at the LB (node 2) from client 1. -/
def evArr : Event :=
  { time := 0, node_id := 2,
    event_type := EventType.arrival 9 [1] 0 5000000 }

/-- A successful response passing back through the LB (node 2) toward
client 1, for a request id the LB is not tracking. -/
def evResp : Event :=
  { time := 0, node_id := 2,
    event_type := EventType.response 9 [1, 2] 0 true 5000000 }

/-- A fresh default server (concurrency 4, backlog 50). -/
def srvFresh : Server :=
  { active_threads := 0, queue := [], next_hop := none, errors := 0,
    healthy := true, arrival_window := [],
    config := { service_time := 200, concurrency := 4, backlog_limit := 50,
                failure_probability := 0, saturation_penalty := 1 / 2 } }

/-- An arrival at the server (node 3). -/
def evSrvArr : Event :=
  { time := 0, node_id := 3,
    event_type := EventType.arrival 9 [1, 2] 0 5000000 }

/-- A healthy client with `arrival_rate = 0` and `generation_id = 1`. -/
def clientZero : Client :=
  { config := { arrival_rate := 0, timeout := 5000, generation_id := 1 },
    target_id := none, window := [], request_counter := 0, healthy := true }

/-- The matching self-tick for `clientZero`. -/
def evGen : Event :=
  { time := 0, node_id := 1, event_type := EventType.generateNext 1 }

/-- The transit command used for the missing-link counterexample. -/
def cmdTransit : ScheduleCmd :=
  { delay := 5, node_id := 2, event_type := EventType.arrival 0 [1] 0 1000 }

/-- The upstream forward the LB emits for `evResp`. -/
def cmdUp : ScheduleCmd :=
  { delay := PROCESS_OVERHEAD_US, node_id := 1,
    event_type := EventType.response 9 [1] 0 true 5000000 }

/-- A load balancer whose config carries a negative `retry_budget_ratio`
(−11): `apply_config` deserializes any `f32` here and the core never
range-checks it. -/
def lbNeg : LoadBalancer :=
  { LoadBalancer.new with
    is_healthy := false
    config := { LoadBalancerConfig.default with retry_budget_ratio := -11 } }

/-! # Theorems -/

/-- C1: the claim says two events with equal `virtual_time_us` are dispatched
in insertion order (FIFO), as if the heap were keyed by
`(virtual_time_us, sequence_number)`.  The code has no sequence number:
`Event`'s `Ord` compares only `time`, and Rust's `BinaryHeap` reorders equal
elements.  Pushing four equal-time events tagged 1, 2, 3, 4 in that order and
draining the heap dispatches them as 1, 3, 2, 4 — not FIFO. -/
theorem c1_equal_time_events_not_fifo :
    drainIds (heapPushAll [] [tieEvent 1, tieEvent 2, tieEvent 3, tieEvent 4])
      = [1, 3, 2, 4] ∧ ([1, 3, 2, 4] : List NodeId) ≠ [1, 2, 3, 4] := by
  decide

/-- C2 counterexample: with no registered link between nodes 1 and 2, an
`Arrival` command with `delay_us = 5` is enqueued at `now + 10005`, not at
`now + 5`: the default `EdgeConfig` carries 10 ms of latency, so the claimed
zero-latency default is false. -/
theorem c2_missing_link_zero_latency_counterexample :
    applyLinkPhysics [] 0 1 cmdTransit (1 / 2) 0 = some 10005 ∧
    (some 10005 : Option Nat) ≠ some 5 := by
  decide

/-- C2 amended: for every `Arrival`/`Response` command between two distinct
nodes with no registered link, the dispatcher applies the default edge —
10 000 µs latency, zero jitter, zero loss — so the command is enqueued at
`now + delay_us + 10000` and is never dropped. -/
theorem c2_missing_link_default_physics (links : LinkTable) (now : Nat)
    (node_id : NodeId) (cmd : ScheduleCmd) (lossDraw : ℚ) (jitterDraw : Nat)
    (h1 : lookupLink links (canonical_key node_id cmd.node_id) = none)
    (h2 : cmd.event_type.isTransit = true)
    (h3 : cmd.node_id ≠ node_id) :
    applyLinkPhysics links now node_id cmd lossDraw jitterDraw
      = some (now + (cmd.delay + 10000)) := by
  unfold applyLinkPhysics
  rw [if_pos ⟨h2, h3⟩, h1]
  simp only [Option.getD, Link.default, Link.get_config, EdgeConfig.default]
  split_ifs <;> simp_all

/-- Witness for `c2_missing_link_default_physics` at a concrete input. -/
theorem c2_missing_link_default_physics_witness :
    applyLinkPhysics [] 3 1 cmdTransit 0 7 = some (3 + (cmdTransit.delay + 10000)) :=
  c2_missing_link_default_physics [] 3 1 cmdTransit 0 7 rfl rfl (by decide)

/-- C4: the claim says the retry delay follows `retry_strategy` (`Immediate`
→ 0, `Exponential` → `retry_backoff_ms · 2^(retry_count-1)`).  The code never
reads `retry_strategy`: with `Immediate` configured and `retry_backoff_ms =
50`, the retry of failed request 7 is scheduled with `delay = 50 · 1000 +
jitter = 50000 ≠ 0` (jitter draw 0). -/
theorem c4_retry_strategy_ignored :
    (lbImm.on_event evFail (fun _ => true) 0 0).2.map (fun c => c.delay)
      = [50000] ∧ (50000 : Nat) ≠ 0 := by
  decide

/-- C5: the claim says applying a valid config sets `is_healthy := false` and
schedules a `MaintenanceComplete` self-event.  The code's `apply_config`
only replaces the config: health stays `true` and no command is returned
(the `EventType` enum has no maintenance variant at all). -/
theorem c5_apply_config_no_maintenance :
    (LoadBalancer.new.apply_config LoadBalancerConfig.default).1.is_healthy = true ∧
    (LoadBalancer.new.apply_config LoadBalancerConfig.default).2 = [] :=
  ⟨rfl, rfl⟩

/-- C8 counterexample: with `arrival_rate = 0` the base self-tick interval is
the literal `1_000_000_000` µs (1000 s), not the claimed 1 s. -/
theorem c8_zero_rate_counterexample :
    clientIntervalUs 0 = 1000000000 ∧ clientIntervalUs 0 ≠ 1000000 := by
  decide

/-- C9: `reset_stats` zeroes both counters and clears the latency ring and
the histogram, while leaving the clock, the event queue, the component map,
the link table, the health buffer and the seed unchanged. -/
theorem c9_reset_stats_frame {C : Type} (s : Simulation C) :
    s.reset_stats.success_count = 0 ∧
    s.reset_stats.failure_count = 0 ∧
    s.reset_stats.latencies = [] ∧
    s.reset_stats.histogram = [] ∧
    s.reset_stats.time = s.time ∧
    s.reset_stats.events = s.events ∧
    s.reset_stats.components = s.components ∧
    s.reset_stats.links = s.links ∧
    s.reset_stats.health_buffer = s.health_buffer ∧
    s.reset_stats.seed = s.seed :=
  ⟨rfl, rfl, rfl, rfl, rfl, rfl, rfl, rfl, rfl, rfl⟩

/-- C3 counterexample: a terminal successful response with elapsed time
70.000001 s (within its timeout) increments `success_count` but is NOT
recorded into the histogram, whose highest recordable value is
67 108 863 µs — the claim's unconditional "recorded into the histogram" is
false. -/
theorem c3_large_elapsed_histogram_counterexample :
    (updateTerminalStats simEmpty eBig).success_count = 1 ∧
    (updateTerminalStats simEmpty eBig).histogram = [] ∧
    (updateTerminalStats simEmpty eBig).latencies = [(70000001, 70000001)] :=
  ⟨rfl, rfl, rfl⟩

/-- C3 amended: for a terminal response (`path.length == 1`) popped by
`step()`: if `now - start_time > timeout` then only `failure_count`
increments; otherwise if `success` then `success_count` increments, the
elapsed time enters the 60-second latency ring (which is then pruned), and
it enters the histogram exactly when it is at most the histogram's highest
recordable value 67 108 863 µs (the top of the last bucket allocated by
`new_with_bounds(1, 60_000_000, 3)`); otherwise only `failure_count`
increments. -/
theorem c3_terminal_response_stats {C : Type} (s : Simulation C) (e : Event)
    (rid : Nat) (path : List NodeId) (st : Nat) (success : Bool) (tmo : Nat)
    (hE : e.event_type = EventType.response rid path st success tmo)
    (hP : path.length = 1) :
    (tmo < e.time - st →
      updateTerminalStats s e =
        { s with
            time := e.time,
            failure_count := s.failure_count + 1 }) ∧
    (¬ tmo < e.time - st → success = true →
      updateTerminalStats s e =
        { s with
            time := e.time,
            success_count := s.success_count + 1,
            latencies := (s.latencies ++ [(e.time, e.time - st)]).dropWhile
              (fun p => p.1 < e.time - 60000000),
            histogram := recordHist s.histogram (e.time - st) }) ∧
    (¬ tmo < e.time - st → success = false →
      updateTerminalStats s e =
        { s with
            time := e.time,
            failure_count := s.failure_count + 1 }) := by
  unfold updateTerminalStats
  rw [hE]
  simp only [hP, if_true]
  refine ⟨fun h => ?_, fun h hs => ?_, fun h hs => ?_⟩
  · rw [if_pos h]
  · rw [if_neg h, hs]
    simp
  · rw [if_neg h, hs]
    simp

/-- Witness for `c3_terminal_response_stats`: the success branch at a 5 ms
elapsed time. -/
theorem c3_terminal_response_stats_witness :
    updateTerminalStats simEmpty eSmall =
      { simEmpty with
          time := eSmall.time,
          success_count := simEmpty.success_count + 1,
          latencies := (simEmpty.latencies ++ [(eSmall.time, eSmall.time - 0)]).dropWhile
            (fun p => p.1 < eSmall.time - 60000000),
          histogram := recordHist simEmpty.histogram (eSmall.time - 0) } :=
  (c3_terminal_response_stats simEmpty eSmall 0 [1] 0 true 10000 rfl rfl).2.1
    (by decide) rfl

/-- C6 counterexample: the per-`Arrival` budget refill
`retry_token_balance += retry_budget_ratio` has no lower clamp, so with a
negative configured ratio (accepted unchecked by `apply_config`) a single
`Arrival` handled by a full-budget LB drives `retry_token_balance` to
−1 < 0 — the unconditional `[0, M]` invariant claimed is false. -/
theorem c6_negative_ratio_counterexample :
    (lbNeg.on_event evArr (fun _ => true) 0 0).1.retry_token_balance = -1 ∧
    (lbNeg.on_event evArr (fun _ => true) 0 0).1.retry_token_balance < 0 := by
  simp only [LoadBalancer.on_event, lbNeg, evArr, LoadBalancer.new,
    LoadBalancerConfig.default, pruneWindow]
  norm_num

/-- C6 amended: for any LB whose configured `retry_budget_ratio` is
nonnegative (the documented token-rate meaning, enforced by the UI), the
retry token bucket invariant `retry_token_balance ∈ [0, M]` holds right
after construction (balance 10, default `M = 10`) and is preserved by every
event the LB handles: the per-`Arrival` refill is capped at `M`, and a
retry consumes exactly 1.0 token and fires only when the balance is at
least 1.0. -/
theorem c6_retry_budget_invariant :
    (0 ≤ LoadBalancer.new.retry_token_balance ∧
      LoadBalancer.new.retry_token_balance ≤
        LoadBalancer.new.config.retry_budget_max_tokens) ∧
    ∀ (lb : LoadBalancer) (ev : Event) (healthy : NodeId → Bool)
      (randIdx jitterDraw : Nat),
      0 ≤ lb.config.retry_budget_ratio →
      0 ≤ lb.retry_token_balance →
      lb.retry_token_balance ≤ lb.config.retry_budget_max_tokens →
      0 ≤ (lb.on_event ev healthy randIdx jitterDraw).1.retry_token_balance ∧
      (lb.on_event ev healthy randIdx jitterDraw).1.retry_token_balance ≤
        (lb.on_event ev healthy randIdx jitterDraw).1.config.retry_budget_max_tokens := by
  constructor
  · constructor <;> norm_num [LoadBalancer.new, LoadBalancerConfig.default]
  intro lb ev healthy r j hratio h0 hM
  obtain ⟨t, n, et⟩ := ev
  cases et <;> simp only [LoadBalancer.on_event, respondUp] <;>
    repeat' split
  all_goals simp_all
  all_goals linarith

/-- Witness for `c6_retry_budget_invariant` on a fresh LB handling a new
arrival. -/
theorem c6_retry_budget_invariant_witness :
    0 ≤ (lbOne.on_event evArr (fun _ => true) 0 0).1.retry_token_balance ∧
    (lbOne.on_event evArr (fun _ => true) 0 0).1.retry_token_balance ≤
      (lbOne.on_event evArr (fun _ => true) 0 0).1.config.retry_budget_max_tokens :=
  c6_retry_budget_invariant.2 lbOne evArr (fun _ => true) 0 0
    (by norm_num [lbOne, LoadBalancer.new, LoadBalancerConfig.default])
    (by norm_num [lbOne, LoadBalancer.new])
    (by norm_num [lbOne, LoadBalancer.new, LoadBalancerConfig.default])

/-- C7: a server satisfying `active_threads ≤ concurrency` and
`queue.length ≤ backlog_limit` still satisfies both after handling any
event: `Arrival` admits into a thread only when `active_threads <
concurrency` and enqueues only when the backlog has room, and
`ProcessComplete` either hands the freed slot to a queued request or
decrements `active_threads`. -/
theorem c7_server_capacity_invariant (s : Server) (ev : Event)
    (failDraw : ℚ) (d1 d2 : Nat)
    (h1 : s.active_threads ≤ s.config.concurrency)
    (h2 : s.queue.length ≤ s.config.backlog_limit) :
    (s.on_event ev failDraw d1 d2).1.active_threads ≤
      (s.on_event ev failDraw d1 d2).1.config.concurrency ∧
    (s.on_event ev failDraw d1 d2).1.queue.length ≤
      (s.on_event ev failDraw d1 d2).1.config.backlog_limit := by
  obtain ⟨t, n, et⟩ := ev
  cases et <;> simp only [Server.on_event] <;> repeat' split
  all_goals simp_all
  all_goals omega

/-- Witness for `c7_server_capacity_invariant`: a fresh default server
admitting one arrival. -/
theorem c7_server_capacity_invariant_witness :
    (srvFresh.on_event evSrvArr 0 1234 0).1.active_threads ≤
      (srvFresh.on_event evSrvArr 0 1234 0).1.config.concurrency ∧
    (srvFresh.on_event evSrvArr 0 1234 0).1.queue.length ≤
      (srvFresh.on_event evSrvArr 0 1234 0).1.config.backlog_limit :=
  c7_server_capacity_invariant srvFresh evSrvArr 0 1234 0 (by decide) (by decide)

/-- C8 amended: for a healthy client whose `generation_id` matches, when the
arrival rate is not positive the base interval for the next self-tick is the
literal `1_000_000_000` µs (1000 s, not the claimed 1 s); with a unit jitter
draw the emitted self-tick delay is exactly that value. -/
theorem c8_zero_rate_fallback (c : Client) (ev : Event) (gid salt : Nat)
    (hH : c.healthy = true) (hE : ev.event_type = EventType.generateNext gid)
    (hG : gid = c.config.generation_id) (hR : ¬ 0 < c.config.arrival_rate) :
    ((c.on_event ev 1 salt).2.head?).map (fun cmd => cmd.delay)
      = some 1000000000 := by
  unfold Client.on_event
  rw [hE]
  have hfloor : (Int.floor ((((1000000000 : Nat) : ℚ)) * 1)).toNat = 1000000000 := by
    rw [mul_one, Int.floor_natCast]
    rfl
  simp only [hH, hG.symm, clientIntervalUs, if_neg hR, hfloor]
  simp only [Bool.true_eq_false, false_or, ne_eq, not_true_eq_false, reduceIte]
  split <;> simp [hfloor]

/-- Witness for `c8_zero_rate_fallback`: the zero-rate client. -/
theorem c8_zero_rate_fallback_witness :
    ((clientZero.on_event evGen 1 0).2.head?).map (fun cmd => cmd.delay)
      = some 1000000000 :=
  c8_zero_rate_fallback clientZero evGen 1 0 rfl rfl rfl (by decide)

/-- C10: every command the LB emits obeys the claimed delays — an `Arrival`
handled by the LB forwards an `Arrival` with the fixed
`PROCESS_OVERHEAD_US = 2000` µs delay and emits failure `Response`s with
zero delay; a `Response` handled by the LB forwards any `Response` upstream
with the same fixed 2000 µs delay. -/
theorem c10_lb_process_overhead (lb : LoadBalancer) (ev : Event)
    (healthy : NodeId → Bool) (randIdx jitterDraw : Nat) (cmd : ScheduleCmd)
    (hmem : cmd ∈ (lb.on_event ev healthy randIdx jitterDraw).2) :
    (ev.event_type.isArrival = true →
      (cmd.event_type.isArrival = true → cmd.delay = PROCESS_OVERHEAD_US) ∧
      (cmd.event_type.isResponse = true → cmd.delay = 0)) ∧
    (ev.event_type.isResponse = true → cmd.event_type.isResponse = true →
      cmd.delay = PROCESS_OVERHEAD_US) := by
  obtain ⟨t, n, et⟩ := ev
  cases et <;> simp only [LoadBalancer.on_event, respondUp] at hmem <;>
    repeat' split at hmem
  all_goals simp_all [EventType.isArrival, EventType.isResponse]

/-- Witness for `c10_lb_process_overhead`: the upstream forward of `evResp`
carries the 2000 µs overhead. -/
theorem c10_lb_process_overhead_witness :
    cmdUp.delay = PROCESS_OVERHEAD_US :=
  (c10_lb_process_overhead lbOne evResp (fun _ => true) 0 0 cmdUp
    (by decide)).2 rfl rfl

end Slay
